import Mathlib

/-!
Shallow embedding of `crates/common/src/view/image.rs` from the
Allium-Game-Tank repository: the `Image` view widget and its
decode → scale → round → align/composite pipeline, the OnceLock cache and
the dirty/redraw state machine.

External collaborators (the image decoder `image::open`, the
fast_image_resize primitive, the corner-mask `round` from
`crate::display::image`, `RgbaImage::new` and `imageops::overlay`) are
modelled as explicit function parameters or, where their behaviour is
fixed by the specification, as concrete definitions marked
"Modelled from the spec".  Machine integers (`u32`) are modelled as `Nat`,
with an explicit wrap-around (`% 2 ^ 32`) on the one place a
multiplication can overflow, and a `u32` division by zero — which in Rust
aborts the computation with a panic — is modelled as `Except.error ()`.
-/

namespace Allium

/-- Rectangle from `crate::geom` (modelled from the spec: integer `x`, `y`
position and unsigned `w`, `h` dimensions). -/
structure Rect where
  x : Int
  y : Int
  w : Nat
  h : Nat
deriving Repr, DecidableEq

/-- Point from `crate::geom` (modelled from the spec). -/
structure Point where
  x : Int
  y : Int
deriving Repr, DecidableEq

/-- Horizontal alignment policy from `crate::geom` (modelled from the
spec: `Left`, `Center`, `Right`). -/
inductive Alignment where
  | Left
  | Center
  | Right
deriving Repr, DecidableEq

/-- `ImageMode` from image.rs lines 24-32. -/
inductive ImageMode where
  | Raw
  | Cover
  | Contain
deriving Repr, DecidableEq

/-- A decoded RGBA bitmap: width, height and the flat pixel buffer
(4 bytes per pixel, row-major, alpha at channel 3). -/
structure Raster where
  w : Nat
  h : Nat
  pix : List Nat
deriving Repr, DecidableEq

/-- Wrap-around of `u32` arithmetic (release-mode Rust semantics). -/
def u32 (n : Nat) : Nat := n % 2 ^ 32

/-- Modelled from the spec: `RgbaImage::new` — a fully transparent
(all-zero) raster of the given size. -/
def newRaster (w h : Nat) : Raster := ⟨w, h, List.replicate (w * h * 4) 0⟩

/-- Modelled from the spec: the corner test used by the corner-mask
primitive; true when pixel `(x, y)` of a `w × h` raster lies in one of the
four radius-sized corner squares but outside the quarter circle there. -/
def cornerMasked (w h radius x y : Nat) : Bool :=
  decide ((x < radius ∧ y < radius ∧
      radius ^ 2 < (radius - x) ^ 2 + (radius - y) ^ 2) ∨
    (w ≤ x + radius + 1 ∧ y < radius ∧
      radius ^ 2 < (x + radius + 1 - w) ^ 2 + (radius - y) ^ 2) ∨
    (x < radius ∧ h ≤ y + radius + 1 ∧
      radius ^ 2 < (radius - x) ^ 2 + (y + radius + 1 - h) ^ 2) ∨
    (w ≤ x + radius + 1 ∧ h ≤ y + radius + 1 ∧
      radius ^ 2 < (x + radius + 1 - w) ^ 2 + (y + radius + 1 - h) ^ 2))

/-- Modelled from the spec: `crate::display::image::round` (repository
code not included under src/).  Per the spec it sets the alpha channel to
transparent for corner pixels outside the rounded-rectangle shape, leaves
colour channels untouched, and a radius of 0 is a no-op. -/
def roundRaster (img : Raster) (radius : Nat) : Raster :=
  if radius = 0 then img
  else
    { img with
      pix := (List.range img.pix.length).map fun i =>
        if i % 4 == 3 && cornerMasked img.w img.h radius (i / 4 % img.w) (i / 4 / img.w) then 0
        else img.pix.getD i 0 }

/-- Modelled from the spec: `imageops::overlay` — place `fg` over `bg` at
offset `(ox, oy)`, clipping at `bg`'s bounds; the result keeps `bg`'s
dimensions. -/
def overlayRaster (bg fg : Raster) (ox oy : Nat) : Raster :=
  { w := bg.w, h := bg.h,
    pix := (List.range bg.pix.length).map fun i =>
      let x := i / 4 % bg.w
      let y := i / 4 / bg.w
      if ox ≤ x ∧ x < ox + fg.w ∧ oy ≤ y ∧ y < oy + fg.h then
        fg.pix.getD (((y - oy) * fg.w + (x - ox)) * 4 + i % 4) (bg.pix.getD i 0)
      else bg.pix.getD i 0 }

/-- Embedding of `Image::resize_image` (image.rs lines 91-114).  The
fast_image_resize steps (`FirImage::from_vec_u8`, `Resizer::resize`) are
abstracted as `resizePrim`, which returns the destination pixel buffer or
none when the primitive rejects the buffers; `RgbaImage::from_raw` then
rebuilds a raster of exactly the requested dimensions when the buffer is
big enough. -/
def resize_image (resizePrim : Raster → Nat → Nat → Option (List Nat))
    (src : Raster) (newW newH : Nat) : Option Raster :=
  match resizePrim src newW newH with
  | none => none
  | some data => if newW * newH * 4 ≤ data.length then some ⟨newW, newH, data⟩ else none

/-- The Contain-mode target dimensions computed by `Image::image`
(image.rs lines 140-141): first component the new width, second the new
height; the `u32` products wrap on overflow. -/
def containDims (rect : Rect) (srcW srcH : Nat) : Nat × Nat :=
  (min rect.w (u32 (rect.h * srcW) / srcH), min rect.h (u32 (rect.w * srcH) / srcW))

/-- The mode match of `Image::image` (image.rs lines 126-146).  In Contain
mode a source with a zero dimension that does not already match the rect
reaches a `u32` division by zero, which in Rust aborts the thread with a
panic, modelled as `Except.error ()`. -/
def scaleStep (resizePrim : Raster → Nat → Nat → Option (List Nat))
    (rect : Rect) (mode : ImageMode) (img : Raster) : Except Unit (Option Raster) :=
  match mode with
  | ImageMode.Raw => Except.ok (some img)
  | ImageMode.Cover =>
    if img.w = rect.w ∧ img.h = rect.h then Except.ok (some img)
    else Except.ok (resize_image resizePrim img rect.w rect.h)
  | ImageMode.Contain =>
    if img.w = rect.w ∧ img.h = rect.h then Except.ok (some img)
    else if img.w = 0 ∨ img.h = 0 then Except.error ()
    else
      Except.ok (resize_image resizePrim img (containDims rect img.w img.h).1
        (containDims rect img.w img.h).2)

/-- The alignment match of `Image::image` (image.rs lines 154-158); `Nat`
subtraction is exactly Rust's `saturating_sub`. -/
def alignOffset (alignment : Alignment) (rectW w : Nat) : Nat :=
  match alignment with
  | Alignment.Left => 0
  | Alignment.Center => (rectW - w) / 2
  | Alignment.Right => rectW - w

/-- The border-radius clamp and rounding step of `Image::image`
(image.rs lines 147-151). -/
def applyRound (img : Raster) (border_radius : Nat) : Raster :=
  if border_radius ≠ 0 then roundRaster img (min (min border_radius (img.w / 2)) (img.h / 2))
  else img

/-- The compositing step of `Image::image` (image.rs lines 152-164); `w`
and `h` are the dimensions taken before rounding (rounding is in place and
preserves them). -/
def place (alignment : Alignment) (rect : Rect) (w h : Nat) (img : Raster) : Raster :=
  if w ≠ rect.w ∨ h ≠ rect.h then
    overlayRaster (newRaster rect.w rect.h) img (alignOffset alignment rect.w w) 0
  else img

/-- Embedding of `Image::image` (image.rs lines 116-167).  `decode` stands
for `image::open` collapsed to success or failure (a failure is logged and
becomes none); `self.alignment` is passed explicitly.  `Except.error ()`
is a division-by-zero panic in Contain mode. -/
def imageFn (decode : String → Option Raster)
    (resizePrim : Raster → Nat → Nat → Option (List Nat)) (alignment : Alignment)
    (path : String) (rect : Rect) (mode : ImageMode) (border_radius : Nat) :
    Except Unit (Option Raster) :=
  match decode path with
  | none => Except.ok none
  | some decoded =>
    match scaleStep resizePrim rect mode decoded with
    | Except.error u => Except.error u
    | Except.ok none => Except.ok none
    | Except.ok (some scaled) =>
      Except.ok (some (place alignment rect scaled.w scaled.h (applyRound scaled border_radius)))

/-- The `Image` widget state (image.rs lines 34-44); the `OnceLock` cache
is an `Option` (none = unset) and `PathBuf` is a `String`. -/
structure Image where
  rect : Rect
  path : Option String
  image : Option (Option Raster)
  mode : ImageMode
  border_radius : Nat
  alignment : Alignment
  dirty : Bool
deriving Repr, DecidableEq

/-- `Image::new` (image.rs lines 47-57). -/
def Image.new (rect : Rect) (path : String) (mode : ImageMode) : Image :=
  ⟨rect, some path, none, mode, 0, Alignment.Left, true⟩

/-- `Image::empty` (image.rs lines 65-75). -/
def Image.empty (rect : Rect) (mode : ImageMode) : Image :=
  ⟨rect, none, none, mode, 0, Alignment.Left, true⟩

/-- `Image::set_border_radius` (image.rs lines 59-63). -/
def Image.set_border_radius (s : Image) (radius : Nat) : Image :=
  { s with border_radius := radius, dirty := true }

/-- `Image::set_path` (image.rs lines 77-84). -/
def Image.set_path (s : Image) (path : Option String) : Image :=
  if path ≠ s.path then { s with image := none, dirty := true, path := path } else s

/-- `Image::set_alignment` (image.rs lines 86-89). -/
def Image.set_alignment (s : Image) (alignment : Alignment) : Image :=
  { s with alignment := alignment }

/-- `View::set_position` for `Image` (image.rs lines 227-231). -/
def Image.set_position (s : Image) (p : Point) : Image :=
  { s with rect := { s.rect with x := p.x, y := p.y }, dirty := true }

/-- `View::should_draw` for `Image` (image.rs lines 198-200). -/
def Image.should_draw (s : Image) : Bool := s.dirty

/-- `View::set_should_draw` for `Image` (image.rs lines 202-204). -/
def Image.set_should_draw (s : Image) : Image := { s with dirty := true }

/-- `View::draw` for `Image` (image.rs lines 172-196).  The display
surface is modelled as infallible (its own failures are external and
propagated as-is by the code), so the draw result is the returned `Bool`,
always `true`; `Except.error ()` is a pipeline panic escaping
`get_or_init`.  `get_or_init` computes the pipeline exactly when the cache
is unset and a path is present, then stores the result; afterwards
`dirty` is set to `!image_loaded && path.is_some()`. -/
def Image.draw (decode : String → Option Raster)
    (resizePrim : Raster → Nat → Nat → Option (List Nat)) (s : Image) :
    Except Unit (Image × Bool) :=
  match s.path with
  | none => Except.ok ({ s with dirty := false }, true)
  | some p =>
    match s.image with
    | some cached => Except.ok ({ s with dirty := !cached.isSome }, true)
    | none =>
      match imageFn decode resizePrim s.alignment p s.rect s.mode s.border_radius with
      | Except.error u => Except.error u
      | Except.ok result =>
        Except.ok ({ s with image := some result, dirty := !result.isSome }, true)

/-- True exactly when `draw` will invoke the pipeline closure
(`OnceLock::get_or_init` computes only when the cache is unset, and the
closure is only reached when a path exists). -/
def Image.drawRuns (s : Image) : Bool := s.path.isSome && s.image.isNone

/-- Iterate `draw` n times, threading the widget state and discarding the
per-call `Bool` results. -/
def Image.drawIter (decode : String → Option Raster)
    (resizePrim : Raster → Nat → Nat → Option (List Nat)) : Nat → Image → Except Unit Image
  | 0, s => Except.ok s
  | n + 1, s =>
    match Image.draw decode resizePrim s with
    | Except.error u => Except.error u
    | Except.ok (s2, _) => Image.drawIter decode resizePrim n s2

/-- A resize primitive that always fails (used by witnesses). -/
def primFail : Raster → Nat → Nat → Option (List Nat) := fun _ _ _ => none

/-- A resize primitive that returns a correctly sized zero buffer (used by
witnesses). -/
def primZero : Raster → Nat → Nat → Option (List Nat) :=
  fun _ w h => some (List.replicate (w * h * 4) 0)

/-- A decoder that always fails (used by witnesses). -/
def decodeFail : String → Option Raster := fun _ => none

/-- A decoder producing a 2 × 2 raster (used by witnesses). -/
def decode22 : String → Option Raster := fun _ => some ⟨2, 2, List.replicate 16 0⟩

/-- A decoder producing a raster with zero width, the input that reaches
the Contain-mode division by zero. -/
def decodeZeroW : String → Option Raster := fun _ => some ⟨0, 1, []⟩

/-- A small raster used by witnesses. -/
def ex1 : Raster := ⟨1, 1, [0, 0, 0, 0]⟩

/-- A 4 × 6 raster used by witnesses. -/
def ex46 : Raster := ⟨4, 6, List.replicate 96 0⟩

/-- The raster the C6 witness pipeline produces. -/
def c6res : Raster := ⟨1, 1, List.replicate 4 0⟩

/-- A widget state whose cache already holds a raster (used by
witnesses). -/
def exCached : Image :=
  { rect := ⟨0, 0, 4, 4⟩, path := some "a", image := some (some ex1),
    mode := ImageMode.Raw, border_radius := 0, alignment := Alignment.Left, dirty := false }

theorem roundRaster_w (img : Raster) (r : Nat) : (roundRaster img r).w = img.w := by
  unfold roundRaster; split <;> rfl

theorem roundRaster_h (img : Raster) (r : Nat) : (roundRaster img r).h = img.h := by
  unfold roundRaster; split <;> rfl

theorem applyRound_w (img : Raster) (br : Nat) : (applyRound img br).w = img.w := by
  unfold applyRound; split
  · exact roundRaster_w img _
  · rfl

theorem applyRound_h (img : Raster) (br : Nat) : (applyRound img br).h = img.h := by
  unfold applyRound; split
  · exact roundRaster_h img _
  · rfl

theorem min_div_two (w h : Nat) : min w h / 2 = min (w / 2) (h / 2) := by
  rcases Nat.le_total w h with hle | hle
  · rw [Nat.min_eq_left hle, Nat.min_eq_left (Nat.div_le_div_right hle)]
  · rw [Nat.min_eq_right hle, Nat.min_eq_right (Nat.div_le_div_right hle)]

theorem drawIter_cached_none (decode : String → Option Raster)
    (resizePrim : Raster → Nat → Nat → Option (List Nat)) (s : Image) (p : String)
    (hp : s.path = some p) (hc : s.image = some none) (hd : s.dirty = true) :
    ∀ n, Image.drawIter decode resizePrim n s = Except.ok s := by
  have hdraw : Image.draw decode resizePrim s = Except.ok (s, true) := by
    obtain ⟨rect, path, image, mode, br, al, dirty⟩ := s
    simp only at hp hc hd
    subst hp; subst hc; subst hd
    unfold Image.draw
    simp
  intro n
  induction n with
  | zero => rfl
  | succ k ih =>
    unfold Image.drawIter
    rw [hdraw]
    exact ih

/-- C10: set_alignment only replaces the alignment field: the dirty flag
and the cache are untouched, so an alignment change alone never schedules
a redraw (should_draw is unchanged) and never affects an already-computed
raster. -/
theorem C10_set_alignment_pure (s : Image) (a : Alignment) :
    s.set_alignment a = { s with alignment := a } ∧
    (s.set_alignment a).dirty = s.dirty ∧
    (s.set_alignment a).image = s.image ∧
    (s.set_alignment a).should_draw = s.should_draw :=
  ⟨rfl, rfl, rfl, rfl⟩

/-- C2: set_path with the current path value is a no-op preserving the
entire state (cache, dirty flag and path included); with a different path
it clears the cache, sets dirty and replaces the path, and the next draw
will run the pipeline again. -/
theorem C2_set_path_spec (s : Image) (p : Option String) :
    (s.set_path p =
      if p = s.path then s else { s with image := none, dirty := true, path := p }) ∧
    (∀ q, p = some q → p ≠ s.path → Image.drawRuns (s.set_path p) = true) := by
  constructor
  · by_cases h : p = s.path
    · simp [Image.set_path, h]
    · simp [Image.set_path, h]
  · intro q hq hne
    subst hq
    unfold Image.set_path
    rw [if_pos hne]
    simp [Image.drawRuns]

/-- C2 witness: a concrete path change clears the cache and forces the
pipeline to run on the next draw. -/
theorem C2_set_path_spec_w : Image.drawRuns (exCached.set_path (some "b")) = true :=
  (C2_set_path_spec exCached (some "b")).2 "b" rfl (by decide)

/-- C1: with the cache already holding a computed value for the current
path, set_border_radius (which also sets the dirty flag), set_alignment
and set_position leave the cached raster unchanged, and draw — under any
values of mode, border_radius, alignment and rect — returns the memoized
value without running the pipeline. -/
theorem C1_cache_and_dirty (decode : String → Option Raster)
    (resizePrim : Raster → Nat → Nat → Option (List Nat)) (s : Image)
    (v : Option Raster) (pth : String) (hc : s.image = some v) (hp : s.path = some pth) :
    (∀ r, (s.set_border_radius r).image = some v ∧ (s.set_border_radius r).dirty = true) ∧
    (∀ a, (s.set_alignment a).image = some v) ∧
    (∀ q, (s.set_position q).image = some v) ∧
    (∀ m br al rc,
      Image.draw decode resizePrim
          { s with mode := m, border_radius := br, alignment := al, rect := rc } =
        Except.ok
          ({ s with
              mode := m, border_radius := br, alignment := al, rect := rc, dirty := !v.isSome },
            true) ∧
      Image.drawRuns { s with mode := m, border_radius := br, alignment := al, rect := rc } =
        false) := by
  obtain ⟨rect, path, image, mode, br0, al0, dirty⟩ := s
  simp only at hc hp
  subst hc; subst hp
  refine ⟨fun r => ⟨rfl, rfl⟩, fun a => rfl, fun q => rfl, fun m br al rc => ⟨?_, rfl⟩⟩
  unfold Image.draw
  simp

/-- C1 witness: at a concrete cached widget, set_border_radius keeps the
cached raster while marking dirty, and a draw after changing mode, radius,
alignment and rect still returns the memoized raster. -/
theorem C1_cache_and_dirty_w :
    ((exCached.set_border_radius 9).image = some (some ex1) ∧
      (exCached.set_border_radius 9).dirty = true) ∧
    Image.draw decodeFail primFail
        { exCached with
            mode := ImageMode.Contain, border_radius := 9, alignment := Alignment.Center,
            rect := ⟨1, 1, 7, 7⟩ } =
      Except.ok
        ({ exCached with
            mode := ImageMode.Contain, border_radius := 9, alignment := Alignment.Center,
            rect := ⟨1, 1, 7, 7⟩, dirty := !(some ex1).isSome },
          true) :=
  ⟨(C1_cache_and_dirty decodeFail primFail exCached (some ex1) "a" rfl rfl).1 9,
    ((C1_cache_and_dirty decodeFail primFail exCached (some ex1) "a" rfl rfl).2.2.2
      ImageMode.Contain 9 Alignment.Center ⟨1, 1, 7, 7⟩).1⟩

/-- C5: a decoded source with a zero dimension in Contain mode reaches the
u32 division by zero in Image::image — the embedded pipeline reports the
Rust panic (Except.error), and no InvalidDimension error exists anywhere
in image.rs. -/
theorem C5_contain_zero_dim :
    imageFn decodeZeroW primFail Alignment.Left "z" ⟨0, 0, 10, 10⟩ ImageMode.Contain 0 =
      Except.error () := rfl

/-- C9: in Raw mode the scaling step returns the decoded source unchanged
(so its dimensions are exactly the source's native ones), and the whole
pipeline never consults the resize primitive. -/
theorem C9_raw_no_resample (decode : String → Option Raster)
    (prim1 prim2 : Raster → Nat → Nat → Option (List Nat)) (al : Alignment)
    (p : String) (rect : Rect) (br : Nat) (img : Raster) :
    scaleStep prim1 rect ImageMode.Raw img = Except.ok (some img) ∧
    imageFn decode prim1 al p rect ImageMode.Raw br =
      imageFn decode prim2 al p rect ImageMode.Raw br := by
  constructor
  · rfl
  · unfold imageFn
    cases decode p <;> rfl

/-- C3: for a widget whose path is set and whose pipeline fails (caching
none): a fresh widget is dirty before its first draw; the first draw
caches none, returns true and leaves dirty true; every subsequent draw
also returns true with dirty still true and with the pipeline never run
again; iterating draw any number of times leaves the state fixed. -/
theorem C3_failed_decode_dirty (decode : String → Option Raster)
    (resizePrim : Raster → Nat → Nat → Option (List Nat)) (s : Image) (p : String)
    (hp : s.path = some p)
    (hfail : imageFn decode resizePrim s.alignment p s.rect s.mode s.border_radius =
      Except.ok none) :
    (Image.new s.rect p s.mode).dirty = true ∧
    Image.draw decode resizePrim { s with image := none } =
      Except.ok ({ s with image := some none, dirty := true }, true) ∧
    Image.draw decode resizePrim { s with image := some none } =
      Except.ok ({ s with image := some none, dirty := true }, true) ∧
    Image.drawRuns { s with image := some none } = false ∧
    (∀ n, Image.drawIter decode resizePrim n { s with image := some none, dirty := true } =
      Except.ok { s with image := some none, dirty := true }) := by
  obtain ⟨rect, path, image, mode, br0, al0, dirty⟩ := s
  simp only at hp hfail
  subst hp
  refine ⟨rfl, ?_, ?_, rfl, ?_⟩
  · unfold Image.draw
    simp only
    rw [hfail]
    simp
  · unfold Image.draw
    simp
  · exact drawIter_cached_none decode resizePrim _ p rfl rfl rfl

/-- C3 witness: a widget bound to a path that fails to decode caches none
on the first draw, returns true, and three further draws leave the dirty
flag true with the state unchanged. -/
theorem C3_failed_decode_dirty_w :
    Image.draw decodeFail primFail
        { Image.new ⟨0, 0, 4, 4⟩ "a" ImageMode.Raw with image := none } =
      Except.ok
        ({ Image.new ⟨0, 0, 4, 4⟩ "a" ImageMode.Raw with image := some none, dirty := true },
          true) ∧
    Image.drawIter decodeFail primFail 3
        { Image.new ⟨0, 0, 4, 4⟩ "a" ImageMode.Raw with image := some none, dirty := true } =
      Except.ok
        { Image.new ⟨0, 0, 4, 4⟩ "a" ImageMode.Raw with image := some none, dirty := true } :=
  ⟨(C3_failed_decode_dirty decodeFail primFail (Image.new ⟨0, 0, 4, 4⟩ "a" ImageMode.Raw)
      "a" rfl rfl).2.1,
    (C3_failed_decode_dirty decodeFail primFail (Image.new ⟨0, 0, 4, 4⟩ "a" ImageMode.Raw)
      "a" rfl rfl).2.2.2.2 3⟩

/-- C4: in Contain mode, for a source of positive dimensions whose u32
products do not overflow, the computed target size is
new_h = min(rect.h, rect.w * srcH / srcW) and
new_w = min(rect.w, rect.h * srcW / srcH) with floor division; hence
new_w ≤ rect.w, new_h ≤ rect.h, and at least one axis is saturated to the
rect's size whenever the source does not already match the rect; the
scaling step resizes to exactly these dimensions. -/
theorem C4_contain_dims (rect : Rect) (sw sh : Nat) (hw : 0 < sw) (hh : 0 < sh)
    (hno1 : rect.w * sh < 2 ^ 32) (hno2 : rect.h * sw < 2 ^ 32) :
    (containDims rect sw sh).2 = min rect.h (rect.w * sh / sw) ∧
    (containDims rect sw sh).1 = min rect.w (rect.h * sw / sh) ∧
    (containDims rect sw sh).1 ≤ rect.w ∧
    (containDims rect sw sh).2 ≤ rect.h ∧
    (¬(sw = rect.w ∧ sh = rect.h) →
      (containDims rect sw sh).1 = rect.w ∨ (containDims rect sw sh).2 = rect.h) ∧
    (∀ resizePrim (img : Raster), img.w = sw → img.h = sh → ¬(sw = rect.w ∧ sh = rect.h) →
      scaleStep resizePrim rect ImageMode.Contain img =
        Except.ok
          (resize_image resizePrim img (containDims rect sw sh).1 (containDims rect sw sh).2)) := by
  have e1 : containDims rect sw sh =
      (min rect.w (rect.h * sw / sh), min rect.h (rect.w * sh / sw)) := by
    unfold containDims u32
    rw [Nat.mod_eq_of_lt hno1, Nat.mod_eq_of_lt hno2]
  refine ⟨by rw [e1], by rw [e1], ?_, ?_, ?_, ?_⟩
  · rw [e1]; exact Nat.min_le_left _ _
  · rw [e1]; exact Nat.min_le_left _ _
  · intro _
    rw [e1]
    by_cases hlt : rect.w * sh / sw < rect.h
    · left
      have hlt2 : rect.w * sh < rect.h * sw := (Nat.div_lt_iff_lt_mul hw).mp hlt
      have hle : rect.w ≤ rect.h * sw / sh := (Nat.le_div_iff_mul_le hh).mpr (Nat.le_of_lt hlt2)
      simp [Nat.min_eq_left hle]
    · right
      have hle : rect.h ≤ rect.w * sh / sw := Nat.le_of_not_lt hlt
      simp [Nat.min_eq_left hle]
  · intro resizePrim img hw2 hh2 hne
    unfold scaleStep
    rw [hw2, hh2]
    have hz : ¬(sw = 0 ∨ sh = 0) := by omega
    simp [hne, hz]

/-- C4 witness: the spec's concrete scenario — rect 100 × 50, source
100 × 200 gives new_h = 50 and new_w = 25. -/
theorem C4_contain_dims_w :
    (containDims ⟨0, 0, 100, 50⟩ 100 200).2 = min 50 (100 * 200 / 100) ∧
    (containDims ⟨0, 0, 100, 50⟩ 100 200).1 = min 100 (50 * 100 / 200) :=
  ⟨(C4_contain_dims ⟨0, 0, 100, 50⟩ 100 200 (by decide) (by decide) (by decide) (by decide)).1,
    (C4_contain_dims ⟨0, 0, 100, 50⟩ 100 200 (by decide) (by decide) (by decide) (by decide)).2.1⟩

/-- C6: whenever the pipeline yields a raster, its dimensions are exactly
the rect's: a pre-composite raster matching the rect is returned as is,
and any other is overlaid onto a fresh transparent raster of the rect's
dimensions. -/
theorem C6_output_dims (decode : String → Option Raster)
    (resizePrim : Raster → Nat → Nat → Option (List Nat)) (al : Alignment) (p : String)
    (rect : Rect) (mode : ImageMode) (br : Nat) (r : Raster)
    (h : imageFn decode resizePrim al p rect mode br = Except.ok (some r)) :
    r.w = rect.w ∧ r.h = rect.h := by
  unfold imageFn at h
  split at h
  · simp at h
  · split at h
    · simp at h
    · simp at h
    · rename_i scaled hs
      simp only [Except.ok.injEq, Option.some.injEq] at h
      rw [← h]
      unfold place
      by_cases hcond : scaled.w ≠ rect.w ∨ scaled.h ≠ rect.h
      · rw [if_pos hcond]
        exact ⟨rfl, rfl⟩
      · rw [if_neg hcond]
        push_neg at hcond
        obtain ⟨h1, h2⟩ := hcond
        rw [applyRound_w, applyRound_h]
        exact ⟨h1, h2⟩

/-- C6 witness: a 2 × 2 source drawn in Cover mode into a 1 × 1 rect comes
out of the pipeline with the rect's dimensions. -/
theorem C6_output_dims_w : c6res.w = 1 ∧ c6res.h = 1 :=
  C6_output_dims decode22 primZero Alignment.Left "p" ⟨0, 0, 1, 1⟩ ImageMode.Cover 0 c6res rfl

/-- C7: the horizontal compositing offset is 0 for Left alignment,
floor((rect.w - w) / 2) for Center and rect.w - w for Right, where the Nat
subtraction saturates to 0 when w exceeds rect.w; whenever compositing
happens, it places the raster at that horizontal offset with vertical
offset 0. -/
theorem C7_align_offsets (rectW w : Nat) :
    alignOffset Alignment.Left rectW w = 0 ∧
    alignOffset Alignment.Center rectW w = (rectW - w) / 2 ∧
    alignOffset Alignment.Right rectW w = rectW - w ∧
    (rectW < w →
      alignOffset Alignment.Center rectW w = 0 ∧ alignOffset Alignment.Right rectW w = 0) ∧
    (∀ (al : Alignment) (rect : Rect) (w2 h2 : Nat) (img : Raster),
      (w2 ≠ rect.w ∨ h2 ≠ rect.h) →
      place al rect w2 h2 img =
        overlayRaster (newRaster rect.w rect.h) img (alignOffset al rect.w w2) 0) := by
  refine ⟨rfl, rfl, rfl, ?_, ?_⟩
  · intro hlt
    refine ⟨?_, ?_⟩ <;> simp only [alignOffset] <;> omega
  · intro al rect w2 h2 img hcond
    unfold place
    rw [if_pos hcond]

/-- C7 witness: a 5-wide raster in a 3-wide rect saturates the Center and
Right offsets to 0, and a concrete composite happens at vertical offset
0. -/
theorem C7_align_offsets_w :
    (alignOffset Alignment.Center 3 5 = 0 ∧ alignOffset Alignment.Right 3 5 = 0) ∧
    place Alignment.Center ⟨0, 0, 4, 4⟩ 2 2 ex1 =
      overlayRaster (newRaster 4 4) ex1 (alignOffset Alignment.Center 4 2) 0 :=
  ⟨(C7_align_offsets 3 5).2.2.2.1 (by decide),
    (C7_align_offsets 3 5).2.2.2.2 Alignment.Center ⟨0, 0, 4, 4⟩ 2 2 ex1 (by decide)⟩

/-- C8: the effective corner radius is the requested one clamped to w/2
then h/2 (that is, min(requested, w/2, h/2)); a requested radius of 0
skips rounding entirely, and any request at least min(w, h)/2 rounds
identically to requesting exactly min(w, h)/2. -/
theorem C8_radius_clamp (img : Raster) (r : Nat) :
    (r ≠ 0 → applyRound img r = roundRaster img (min (min r (img.w / 2)) (img.h / 2))) ∧
    applyRound img 0 = img ∧
    (min img.w img.h / 2 ≤ r → applyRound img r = applyRound img (min img.w img.h / 2)) := by
  refine ⟨?_, ?_, ?_⟩
  · intro h0
    unfold applyRound
    rw [if_pos h0]
  · unfold applyRound
    simp
  · intro hr
    by_cases h0 : r = 0
    · subst h0
      have hm : min img.w img.h / 2 = 0 := Nat.le_zero.mp hr
      rw [hm]
    · by_cases hm : min img.w img.h / 2 = 0
      · have hmin : min (img.w / 2) (img.h / 2) = 0 := by
          rw [← min_div_two]; exact hm
        have hc : min (min r (img.w / 2)) (img.h / 2) = 0 := by
          rw [Nat.min_assoc, hmin, Nat.min_zero]
        rw [hm]
        unfold applyRound
        rw [if_pos h0, if_neg (by simp)]
        rw [hc]
        unfold roundRaster
        rw [if_pos rfl]
      · have hmd : min img.w img.h / 2 = min (img.w / 2) (img.h / 2) := min_div_two img.w img.h
        unfold applyRound
        rw [if_pos h0, if_pos hm]
        rw [Nat.min_assoc, Nat.min_assoc, ← hmd]
        rw [Nat.min_self, Nat.min_eq_right hr]

/-- C8 witness: on a 4 × 6 raster a requested radius of 100 rounds
identically to requesting min(4, 6)/2 = 2, and a radius of 0 is skipped
entirely. -/
theorem C8_radius_clamp_w :
    applyRound ex46 100 = applyRound ex46 (min ex46.w ex46.h / 2) ∧ applyRound ex46 0 = ex46 :=
  ⟨(C8_radius_clamp ex46 100).2.2 (by decide), (C8_radius_clamp ex46 100).2.1⟩

/-- C4 counterexample: the claim as stated — for every rect and every
source of positive dimensions — fails on the code's u32 arithmetic: at
rect 2^31 × 2^31 with a 2 × 2 source (positive, unequal to the rect) both
products rect.w * srcH and rect.h * srcW wrap to 0, so both computed
dimensions are 0: the claimed formula min(rect.h, rect.w * srcH / srcW)
= 2^31 is violated, and neither axis is saturated to the rect's size. -/
theorem C4_contain_dims_cex :
    (containDims ⟨0, 0, 2 ^ 31, 2 ^ 31⟩ 2 2).1 = 0 ∧
    (containDims ⟨0, 0, 2 ^ 31, 2 ^ 31⟩ 2 2).2 = 0 ∧
    min (2 ^ 31 : Nat) (2 ^ 31 * 2 / 2) = 2 ^ 31 ∧
    ¬((containDims ⟨0, 0, 2 ^ 31, 2 ^ 31⟩ 2 2).2 =
        min (2 ^ 31 : Nat) (2 ^ 31 * 2 / 2)) ∧
    ¬((containDims ⟨0, 0, 2 ^ 31, 2 ^ 31⟩ 2 2).1 = (2 ^ 31 : Nat) ∨
      (containDims ⟨0, 0, 2 ^ 31, 2 ^ 31⟩ 2 2).2 = (2 ^ 31 : Nat)) := by
  refine ⟨rfl, rfl, rfl, ?_, ?_⟩ <;> decide
